import Mathlib

/-!
Verification of the normal-mode algebra layer of ProDy
(`lib/prody/dynamics/mode.py`): the `VectorBase` shared operator suite
and the concrete `Mode` and `Vector` classes.

The embedding is exact-arithmetic: numpy float arrays are modelled as
`List ℚ` (the claims under study are about control flow, error taxonomy
and exact algebraic identities, not float rounding).  Python exceptions
are modelled by an error type and `Except`.  The code is Python 2 era
(it defines `__div__` / `__idiv__`), so `/` on the `int` result of
`len(...)` is integer (floor) division.
-/

namespace ProDyMode

/-- Python exceptions raised by the module: `ValueError`, `TypeError`, and
`NameError` (the latter arises from two slips in the source where an
undefined name is evaluated inside an exception handler). -/
inductive PyErr where
  | valueError (msg : String)
  | typeError (msg : String)
  | nameError (msg : String)
deriving DecidableEq, Repr

/-- A numpy `ndarray` of rationals: a shape together with the flattened
data; numpy guarantees the data size matches the shape product. -/
structure NDArray where
  shape : List Nat
  data : List ℚ
  size_eq : data.length = shape.prod
deriving DecidableEq

/-- `a.ndim` of a numpy array is the length of its shape tuple. -/
def NDArray.ndim (a : NDArray) : Nat := a.shape.length

/-- The argument accepted by `Vector.__init__`: either an object that
already has `.ndim`/`.shape` (an ndarray), or a plain Python list of
numbers, which `np.array` coerces to a 1-D ndarray. -/
inductive ArrayLike where
  | ndarray (arr : NDArray)
  | pylist (xs : List ℚ)
deriving DecidableEq

/-- `np.array` applied to a non-ndarray input (the coercion performed in
`Vector.__init__` when the argument has no `.ndim` attribute). -/
def npArrayOf : ArrayLike → NDArray
  | .ndarray a => a
  | .pylist xs => ⟨[xs.length], xs, by simp⟩

/-- The `Vector` class: slots `_title`, `_array`, `_is3d`. -/
structure Vector where
  _title : String
  _array : List ℚ
  _is3d : Bool
deriving DecidableEq, Repr

/-- `Vector.__init__`: if the argument has no `.ndim` it is coerced with
`np.array`; raises `ValueError` unless the array is exactly 1-D; if
`is3d` is set, raises `ValueError` unless `shape[0]` is a multiple of 3.
Defaults: `title='Unknown'`, `is3d=True`. -/
def Vector.init (array : ArrayLike) (title : String := "Unknown")
    (is3d : Bool := true) : Except PyErr Vector :=
  let arr :=
    match array with
    | .ndarray a => a
    | a => npArrayOf a
  if arr.ndim ≠ 1 then
    .error (.valueError "array.ndim must be 1")
  else if is3d = true ∧ arr.shape.headD 0 % 3 ≠ 0 then
    .error (.valueError "len(array) must be a multiple of 3")
  else
    .ok ⟨title, arr.data, is3d⟩

/-- `Vector.__len__`. -/
def Vector.length (v : Vector) : Nat := v._array.length

/-- `Vector.is3d`. -/
def Vector.is3dM (v : Vector) : Bool := v._is3d

/-- `Vector.numDOF`: length of the array. -/
def Vector.numDOF (v : Vector) : Nat := v._array.length

/-- `Vector.numAtoms`: `len(self._array)/3` for 3-D vectors (Python 2
integer division on ints), else `len(self._array)`. -/
def Vector.numAtoms (v : Vector) : Nat :=
  if v._is3d then v._array.length / 3 else v._array.length

/-- `Vector.setTitle` — the only mutation the class allows: it replaces
the `_title` slot and nothing else. -/
def Vector.setTitle (v : Vector) (title : String) : Vector :=
  { v with _title := title }

/-- The external NMA model collaborator referenced by `Mode` (section 6
of the module contract): a 2-D eigenvector array (columns are modes), a
1-D eigenvalue array, a 1-D variance array, DOF and atom counts, a 3-D
flag and a printable label. -/
structure NMAModel where
  _array : List (List ℚ)
  _eigvals : List ℚ
  _vars : List ℚ
  dof : Nat
  natoms : Nat
  is3dFlag : Bool
  label : String
deriving DecidableEq

/-- `model._array[:, j]`: the j-th column of the eigenvector matrix
(`_array` is stored as a list of rows). -/
def NMAModel.column (m : NMAModel) (j : Nat) : List ℚ :=
  m._array.map (fun row => row.getD j 0)

/-- The `Mode` class: slots `_model`, `_index`. -/
structure Mode where
  _model : NMAModel
  _index : Nat
deriving DecidableEq

/-- `Mode.__len__` = `model.numDOF()`. -/
def Mode.length (m : Mode) : Nat := m._model.dof

/-- `Mode.__str__`: `'Mode {0} from {1}'.format(self._index+1, str(self._model))`. -/
def Mode.str (m : Mode) : String :=
  "Mode " ++ toString (m._index + 1) ++ " from " ++ m._model.label

/-- `Mode.__int__`: the zero-based index. -/
def Mode.toIndex (m : Mode) : Nat := m._index

/-- `Mode.getEigval`: `self._model._eigvals[self._index]`. -/
def Mode.getEigval (m : Mode) : ℚ := m._model._eigvals.getD m._index 0

/-- `Mode.__float__` = `self.getEigval()`. -/
def Mode.toFloat (m : Mode) : ℚ := m.getEigval

/-- `Mode._getArray`: the index-th column of the model's eigenvector
matrix. -/
def Mode.getArr (m : Mode) : List ℚ := m._model.column m._index

/-- `Mode.is3d` delegates to the model. -/
def Mode.is3dM (m : Mode) : Bool := m._model.is3dFlag

/-- `Mode.numAtoms` delegates to the model. -/
def Mode.numAtoms (m : Mode) : Nat := m._model.natoms

/-- `Mode.numDOF` delegates to the model. -/
def Mode.numDOF (m : Mode) : Nat := m._model.dof

/-- A `VectorBase` value: either a `Mode` or a `Vector`. -/
inductive VB where
  | mode (m : Mode)
  | vec (v : Vector)
deriving DecidableEq

/-- `self._getArray()` on a `VectorBase`. -/
def VB.getArr : VB → List ℚ
  | .mode m => m.getArr
  | .vec v => v._array

/-- `self.is3d()` on a `VectorBase`. -/
def VB.is3d : VB → Bool
  | .mode m => m.is3dM
  | .vec v => v._is3d

/-- `str(self)` on a `VectorBase` (`Mode.__str__` / `Vector.__str__`). -/
def VB.str : VB → String
  | .mode m => m.str
  | .vec v => v._title

/-- `len(self)` on a `VectorBase`. -/
def VB.len : VB → Nat
  | .mode m => m.length
  | .vec v => v._array.length

/-- A Python value appearing as the other operand of an operator, or as
an operator's result: a `VectorBase` instance, a numeric scalar, or some
other object carrying its display string (`str(other)`); `other` here
stands for objects that support neither the mode interface nor numpy
arithmetic against a float array. -/
inductive PyVal where
  | vb (x : VB)
  | scalar (q : ℚ)
  | other (repr : String)
deriving DecidableEq

/-- Decimal-style rendering of a rational scalar (stands for Python's
`str` of a number in composed titles and error messages). -/
def qstr (q : ℚ) : String :=
  toString q.num ++ (if q.den = 1 then "" else "/" ++ toString q.den)

/-- `str(other)` for an operand. -/
def pyStr : PyVal → String
  | .vb x => x.str
  | .scalar q => qstr q
  | .other r => r

/-- Placeholder for the text of the underlying numpy error interpolated
via `str(err)` into `TypeError` messages. -/
def npErrText : String := "unsupported operand"

/-- `np.dot` of two equal-length 1-D arrays. -/
def npDot (xs ys : List ℚ) : ℚ := (List.zipWith (· * ·) xs ys).sum

/-- Build the 1-D ndarray holding a freshly computed result array, as
every operator does before handing it to the `Vector` constructor. -/
def mk1d (xs : List ℚ) : ArrayLike :=
  .ndarray ⟨[xs.length], xs, by simp⟩

/-- `return Vector(result, title, is3d)` as performed by each operator:
the constructor runs (and may raise), and a successful result is the new
`Vector` instance. -/
def mkVec (xs : List ℚ) (title : String) (is3d : Bool) : Except PyErr PyVal :=
  match Vector.init (mk1d xs) title is3d with
  | .ok v => .ok (.vb (.vec v))
  | .error e => .error e

/-- `VectorBase.__neg__`: `Vector(-arr, '-({0})'.format(str(self)), self.is3d())`. -/
def VB.neg (s : VB) : Except PyErr PyVal :=
  mkVec (s.getArr.map (fun x => -x)) ("-(" ++ s.str ++ ")") s.is3d

/-- `VectorBase.__div__`: elementwise `arr / other` for a scalar;
anything else makes the division raise, caught and re-raised as
`TypeError('{0} is not a scalar {1}')`. -/
def VB.div (s : VB) (o : PyVal) : Except PyErr PyVal :=
  match o with
  | .scalar c =>
      mkVec (s.getArr.map (fun x => x / c))
        ("(" ++ s.str ++ ")/" ++ qstr c) s.is3d
  | .vb t => .error (.typeError (t.str ++ " is not a scalar " ++ npErrText))
  | .other r => .error (.typeError (r ++ " is not a scalar " ++ npErrText))

/-- `VectorBase.__idiv__` returns `self.__div__(other)`. -/
def VB.idiv (s : VB) (o : PyVal) : Except PyErr PyVal := VB.div s o

/-- `VectorBase.__mul__`.  If `other` exposes `_getArray` the branch
computes `np.dot`; when the dot raises (unequal lengths), the handler
interpolates `str(err)` but `err` is unbound in that scope, so a
`NameError` is raised instead of the intended `ValueError`.  Otherwise
`other * arr` is attempted: a scalar succeeds and is wrapped as
`Vector(result, '({1})*{0}', self.is3d())`; an object numpy cannot
multiply raises, re-raised as `TypeError`. -/
def VB.mul (s : VB) (o : PyVal) : Except PyErr PyVal :=
  match o with
  | .vb t =>
      if s.getArr.length = t.getArr.length then
        .ok (.scalar (npDot s.getArr t.getArr))
      else
        .error (.nameError "name err is not defined")
  | .scalar c =>
      mkVec (s.getArr.map (fun x => c * x))
        ("(" ++ s.str ++ ")*" ++ qstr c) s.is3d
  | .other r =>
      .error (.typeError (r ++ " is not a scalar or a mode (" ++ npErrText ++ ")"))

/-- `VectorBase.__rmul__`: same dispatch as `__mul__`, title
`'{0}*({1})'.format(other, str(self))`; the dot-product branch has the
same unbound `err`. -/
def VB.rmul (s : VB) (o : PyVal) : Except PyErr PyVal :=
  match o with
  | .vb t =>
      if s.getArr.length = t.getArr.length then
        .ok (.scalar (npDot s.getArr t.getArr))
      else
        .error (.nameError "name err is not defined")
  | .scalar c =>
      mkVec (s.getArr.map (fun x => c * x))
        (qstr c ++ "*(" ++ s.str ++ ")") s.is3d
  | .other r =>
      .error (.typeError (r ++ " is not a scalar or a mode (" ++ npErrText ++ ")"))

/-- `VectorBase.__imul__` returns `self.__mul__(other)`. -/
def VB.imul (s : VB) (o : PyVal) : Except PyErr PyVal := VB.mul s o

/-- `VectorBase.__add__`: requires `isinstance(other, VectorBase)`,
raises `ValueError('modes do not have the same length')` when lengths
differ, else builds `Vector(arr_self + arr_other, '({0}) + ({1})',
self.is3d())`; a non-`VectorBase` operand raises
`TypeError('{0} is not a mode instance')`. -/
def VB.add (s : VB) (o : PyVal) : Except PyErr PyVal :=
  match o with
  | .vb t =>
      if s.len ≠ t.len then
        .error (.valueError "modes do not have the same length")
      else
        mkVec (List.zipWith (· + ·) s.getArr t.getArr)
          ("(" ++ s.str ++ ") + (" ++ t.str ++ ")") s.is3d
  | .scalar c => .error (.typeError (qstr c ++ " is not a mode instance"))
  | .other r => .error (.typeError (r ++ " is not a mode instance"))

/-- `VectorBase.__radd__`: as `__add__` with the title order swapped. -/
def VB.radd (s : VB) (o : PyVal) : Except PyErr PyVal :=
  match o with
  | .vb t =>
      if s.len ≠ t.len then
        .error (.valueError "modes do not have the same length")
      else
        mkVec (List.zipWith (· + ·) s.getArr t.getArr)
          ("(" ++ t.str ++ ") + (" ++ s.str ++ ")") s.is3d
  | .scalar c => .error (.typeError (qstr c ++ " is not a mode instance"))
  | .other r => .error (.typeError (r ++ " is not a mode instance"))

/-- `VectorBase.__iadd__` returns `self.__add__(other)`. -/
def VB.iadd (s : VB) (o : PyVal) : Except PyErr PyVal := VB.add s o

/-- `VectorBase.__sub__`: as `__add__` with elementwise difference and
title `'({0}) - ({1})'`. -/
def VB.sub (s : VB) (o : PyVal) : Except PyErr PyVal :=
  match o with
  | .vb t =>
      if s.len ≠ t.len then
        .error (.valueError "modes do not have the same length")
      else
        mkVec (List.zipWith (· - ·) s.getArr t.getArr)
          ("(" ++ s.str ++ ") - (" ++ t.str ++ ")") s.is3d
  | .scalar c => .error (.typeError (qstr c ++ " is not a mode instance"))
  | .other r => .error (.typeError (r ++ " is not a mode instance"))

/-- `VectorBase.__rsub__`: `other._getArray() - self._getArray()`, title
order swapped, 3-D flag still from `self`. -/
def VB.rsub (s : VB) (o : PyVal) : Except PyErr PyVal :=
  match o with
  | .vb t =>
      if s.len ≠ t.len then
        .error (.valueError "modes do not have the same length")
      else
        mkVec (List.zipWith (· - ·) t.getArr s.getArr)
          ("(" ++ t.str ++ ") - (" ++ s.str ++ ")") s.is3d
  | .scalar c => .error (.typeError (qstr c ++ " is not a mode instance"))
  | .other r => .error (.typeError (r ++ " is not a mode instance"))

/-- `VectorBase.__isub__` returns `self.__sub__(other)`. -/
def VB.isub (s : VB) (o : PyVal) : Except PyErr PyVal := VB.sub s o

/-- Elementwise float power specialised to integer-valued exponents:
`x ** e` is `x ^ e.num` when `e` is an integer; non-integer exponents
are irrational in general and outside the exact rational model. -/
def powElt (x e : ℚ) : ℚ := x ^ e.num

/-- `VectorBase.__pow__`: `arr ** other` succeeds for a numeric scalar
and is wrapped as a new `Vector`; when it raises (non-numeric exponent),
the handler clause reads the undefined name `Exceptions`, so the
operation raises `NameError`, never the `TypeError` the handler tries to
build. -/
def VB.pow (s : VB) (o : PyVal) : Except PyErr PyVal :=
  match o with
  | .scalar c =>
      mkVec (s.getArr.map (fun x => powElt x c))
        ("(" ++ s.str ++ ")**" ++ qstr c) s.is3d
  | .vb _ => .error (.nameError "name Exceptions is not defined")
  | .other _ => .error (.nameError "name Exceptions is not defined")

/-- `Vector.getNormed`: `Vector(arr / norm, '({0})/||{0}||', is3d)`.
The Euclidean norm `√(Σ xᵢ²)` is irrational in general, so the exact
rational embedding takes the computed norm as a parameter. -/
def Vector.getNormedWith (v : Vector) (nrm : ℚ) : Except PyErr PyVal :=
  mkVec (v._array.map (fun x => x / nrm))
    ("(" ++ v._title ++ ")/||" ++ v._title ++ "||") v._is3d

/-- The `Vector` well-formedness invariant from the spec: a 3-D vector's
length is a multiple of 3. -/
def Vector.inv3d (v : Vector) : Prop :=
  v._is3d = true → v._array.length % 3 = 0

/-- `needle` occurs as a contiguous substring of `hay`. -/
def occursIn (needle hay : List Char) : Bool :=
  hay.tails.any (fun t => needle.isPrefixOf t)

/-- An error message mentions a label when the label's text occurs in
the message. -/
def mentions (msg label : String) : Prop :=
  occursIn label.data msg.data = true

instance (msg label : String) : Decidable (mentions msg label) :=
  inferInstanceAs (Decidable (occursIn label.data msg.data = true))

/-! Helper lemmas shared by the claim theorems. -/

theorem size_eq_headD {a : NDArray} (h : a.ndim = 1) :
    a.data.length = a.shape.headD 0 := by
  obtain ⟨n, hn⟩ := List.length_eq_one.mp h
  have hs := a.size_eq
  rw [hn] at hs ⊢
  simpa using hs

theorem init_ndarray {arr : NDArray} {t : String} {d : Bool} :
    Vector.init (.ndarray arr) t d =
      if arr.ndim ≠ 1 then
        .error (.valueError "array.ndim must be 1")
      else if d = true ∧ arr.shape.headD 0 % 3 ≠ 0 then
        .error (.valueError "len(array) must be a multiple of 3")
      else
        .ok ⟨t, arr.data, d⟩ := rfl

theorem init_pylist {xs : List ℚ} {t : String} {d : Bool} :
    Vector.init (.pylist xs) t d = Vector.init (mk1d xs) t d := rfl

theorem init_mk1d (xs : List ℚ) (t : String) (d : Bool)
    (hinv : d = true → xs.length % 3 = 0) :
    Vector.init (mk1d xs) t d = .ok ⟨t, xs, d⟩ := by
  have e : Vector.init (mk1d xs) t d =
      if d = true ∧ xs.length % 3 ≠ 0 then
        .error (.valueError "len(array) must be a multiple of 3")
      else .ok ⟨t, xs, d⟩ := by
    rw [show Vector.init (mk1d xs) t d =
      (if (1 : Nat) ≠ 1 then .error (.valueError "array.ndim must be 1")
       else if d = true ∧ xs.length % 3 ≠ 0 then
         .error (.valueError "len(array) must be a multiple of 3")
       else .ok ⟨t, xs, d⟩) from rfl]
    rw [if_neg (by simp)]
  rw [e, if_neg]
  rintro ⟨hd, hmod⟩
  exact hmod (hinv hd)

theorem init_ok_inv {a : ArrayLike} {t : String} {d : Bool} {v : Vector}
    (h : Vector.init a t d = .ok v) : v.inv3d := by
  have key : ∀ (arr : NDArray),
      Vector.init (.ndarray arr) t d = .ok v → v.inv3d := by
    intro arr harr
    rw [init_ndarray] at harr
    by_cases h1 : arr.ndim ≠ 1
    · rw [if_pos h1] at harr
      exact Except.noConfusion harr
    · rw [if_neg h1] at harr
      by_cases h2 : d = true ∧ arr.shape.headD 0 % 3 ≠ 0
      · rw [if_pos h2] at harr
        exact Except.noConfusion harr
      · rw [if_neg h2] at harr
        cases harr
        push_neg at h2
        intro hd
        rw [size_eq_headD (not_not.mp h1)]
        exact h2 hd
  cases a with
  | ndarray arr => exact key arr h
  | pylist xs => exact key ⟨[xs.length], xs, by simp⟩ h

theorem mkVec_ok {xs : List ℚ} {t : String} {d : Bool} {r : PyVal}
    (h : mkVec xs t d = .ok r) :
    ∃ v : Vector, Vector.init (mk1d xs) t d = .ok v ∧ r = .vb (.vec v) := by
  unfold mkVec at h
  cases hv : Vector.init (mk1d xs) t d with
  | ok v =>
    rw [hv] at h
    have h2 : Except.ok (PyVal.vb (VB.vec v)) = Except.ok r := h
    cases h2
    exact ⟨v, rfl, rfl⟩
  | error e =>
    rw [hv] at h
    have h2 : (Except.error e : Except PyErr PyVal) = Except.ok r := h
    exact Except.noConfusion h2

theorem mkVec_eq_ok (xs : List ℚ) (t : String) (d : Bool)
    (hinv : d = true → xs.length % 3 = 0) :
    mkVec xs t d = .ok (.vb (.vec ⟨t, xs, d⟩)) := by
  unfold mkVec
  rw [init_mk1d xs t d hinv]

/-- The shape that every successful non-scalar operator result takes: a
`Vector` freshly returned by the constructor. -/
def freshVec (r : PyVal) : Prop :=
  ∃ (xs : List ℚ) (t : String) (d : Bool) (v : Vector),
    Vector.init (mk1d xs) t d = .ok v ∧ r = .vb (.vec v)

theorem mkVec_fresh {xs : List ℚ} {t : String} {d : Bool} {r : PyVal}
    (h : mkVec xs t d = .ok r) : freshVec r := by
  obtain ⟨v, hv, hr⟩ := mkVec_ok h
  exact ⟨xs, t, d, v, hv, hr⟩

theorem neg_ok_shape {s : VB} {r : PyVal} (h : VB.neg s = .ok r) :
    freshVec r :=
  mkVec_fresh h

theorem div_ok_shape {s : VB} {o : PyVal} {r : PyVal}
    (h : VB.div s o = .ok r) : freshVec r := by
  cases o with
  | scalar c => exact mkVec_fresh h
  | vb x => exact Except.noConfusion h
  | other x => exact Except.noConfusion h

theorem mul_ok_shape {s : VB} {o : PyVal} {r : PyVal}
    (h : VB.mul s o = .ok r) (hs : ∀ q, r ≠ .scalar q) : freshVec r := by
  cases o with
  | scalar c => exact mkVec_fresh h
  | vb x =>
    simp only [VB.mul] at h
    split at h
    · cases h
      exact absurd rfl (hs _)
    · exact Except.noConfusion h
  | other x => exact Except.noConfusion h

theorem rmul_ok_shape {s : VB} {o : PyVal} {r : PyVal}
    (h : VB.rmul s o = .ok r) (hs : ∀ q, r ≠ .scalar q) : freshVec r := by
  cases o with
  | scalar c => exact mkVec_fresh h
  | vb x =>
    simp only [VB.rmul] at h
    split at h
    · cases h
      exact absurd rfl (hs _)
    · exact Except.noConfusion h
  | other x => exact Except.noConfusion h

theorem add_ok_shape {s : VB} {o : PyVal} {r : PyVal}
    (h : VB.add s o = .ok r) : freshVec r := by
  cases o with
  | vb x =>
    simp only [VB.add] at h
    split at h
    · exact Except.noConfusion h
    · exact mkVec_fresh h
  | scalar c => exact Except.noConfusion h
  | other x => exact Except.noConfusion h

theorem radd_ok_shape {s : VB} {o : PyVal} {r : PyVal}
    (h : VB.radd s o = .ok r) : freshVec r := by
  cases o with
  | vb x =>
    simp only [VB.radd] at h
    split at h
    · exact Except.noConfusion h
    · exact mkVec_fresh h
  | scalar c => exact Except.noConfusion h
  | other x => exact Except.noConfusion h

theorem sub_ok_shape {s : VB} {o : PyVal} {r : PyVal}
    (h : VB.sub s o = .ok r) : freshVec r := by
  cases o with
  | vb x =>
    simp only [VB.sub] at h
    split at h
    · exact Except.noConfusion h
    · exact mkVec_fresh h
  | scalar c => exact Except.noConfusion h
  | other x => exact Except.noConfusion h

theorem rsub_ok_shape {s : VB} {o : PyVal} {r : PyVal}
    (h : VB.rsub s o = .ok r) : freshVec r := by
  cases o with
  | vb x =>
    simp only [VB.rsub] at h
    split at h
    · exact Except.noConfusion h
    · exact mkVec_fresh h
  | scalar c => exact Except.noConfusion h
  | other x => exact Except.noConfusion h

theorem pow_ok_shape {s : VB} {o : PyVal} {r : PyVal}
    (h : VB.pow s o = .ok r) : freshVec r := by
  cases o with
  | scalar c => exact mkVec_fresh h
  | vb x => exact Except.noConfusion h
  | other x => exact Except.noConfusion h

theorem getNormedWith_ok_shape {w : Vector} {nrm : ℚ} {r : PyVal}
    (h : Vector.getNormedWith w nrm = .ok r) : freshVec r :=
  mkVec_fresh h

theorem freshVec_inv {v : Vector} (h : freshVec (.vb (.vec v))) :
    v.inv3d := by
  obtain ⟨xs, t, d, w, hw, hr⟩ := h
  have hwv : w = v := by
    simpa using hr.symm
  exact hwv ▸ init_ok_inv hw

theorem zipWith_add_comm (as bs : List ℚ) :
    List.zipWith (· + ·) as bs = List.zipWith (· + ·) bs as := by
  induction as generalizing bs with
  | nil => cases bs <;> simp
  | cons a as ih => cases bs <;> simp [ih, add_comm]

theorem zipWith_add_sub_cancel (as bs : List ℚ) (h : as.length = bs.length) :
    List.zipWith (· - ·) (List.zipWith (· + ·) as bs) bs = as := by
  induction as generalizing bs with
  | nil => simp
  | cons a as ih =>
    cases bs with
    | nil => simp at h
    | cons b bs =>
      simp only [List.length_cons, Nat.succ.injEq] at h
      simp [ih bs h]

theorem occursIn_append (n rest : List Char) :
    occursIn n (n ++ rest) = true := by
  unfold occursIn
  rw [List.any_eq_true]
  exact ⟨n ++ rest, (List.mem_tails _ _).mpr (List.suffix_refl _),
    List.isPrefixOf_iff_prefix.mpr ⟨rest, rfl⟩⟩

theorem mentions_self_append (r rest : String) : mentions (r ++ rest) r := by
  unfold mentions
  show occursIn r.data (r.data ++ rest.data) = true
  exact occursIn_append r.data rest.data

/-! The claim theorems. -/

/-- C1: `VectorBase.__pow__` is claimed to raise a `TypeError` whenever
elementwise exponentiation fails, and to return a new `Vector` holding
the elementwise power for a valid scalar exponent.  The success half
holds, but the failure path is broken in the code: the handler is
written `except Exceptions as err`, and evaluating the undefined name
`Exceptions` raises a `NameError` instead of the intended `TypeError`.
This theorem evaluates both paths at concrete inputs: exponentiation by
the non-scalar string `x` yields the `NameError` and never a
`TypeError`, while exponentiation of `[1, 2, 3]` by the scalar 2
returns the fresh `Vector` with array `[1, 4, 9]`. -/
theorem claim1_pow_error_path_raises_NameError :
    VB.pow (.vec ⟨"v", [1, 2, 3], false⟩) (.other "x")
      = .error (.nameError "name Exceptions is not defined")
    ∧ (∀ msg, VB.pow (.vec ⟨"v", [1, 2, 3], false⟩) (.other "x")
        ≠ .error (.typeError msg))
    ∧ VB.pow (.vec ⟨"v", [1, 2, 3], false⟩) (.scalar 2)
      = .ok (.vb (.vec ⟨"(v)**" ++ qstr 2, [1, 4, 9], false⟩)) := by
  refine ⟨rfl, ?_, ?_⟩
  · intro msg h
    exact PyErr.noConfusion (Except.error.inj h)
  · have harr : List.map (fun x => powElt x 2) [(1 : ℚ), 2, 3] = [1, 4, 9] := by
      norm_num [powElt]
    calc VB.pow (.vec ⟨"v", [1, 2, 3], false⟩) (.scalar 2)
        = mkVec (List.map (fun x => powElt x 2) [(1 : ℚ), 2, 3])
            ("(v)**" ++ qstr 2) false := rfl
      _ = mkVec [1, 4, 9] ("(v)**" ++ qstr 2) false := by rw [harr]
      _ = .ok (.vb (.vec ⟨"(v)**" ++ qstr 2, [1, 4, 9], false⟩)) :=
          mkVec_eq_ok _ _ _ (fun h => Bool.noConfusion h)

/-- C2 counterexample: the claim's concrete example is false on the
code.  A 3-D vector of length 12 is constructible (12 is a multiple of
3) and its `numAtoms()` is `12 / 3 = 4`, not 3 as claimed. -/
theorem claim2_numAtoms_len12_counterexample :
    Vector.init (mk1d (List.replicate 12 1)) "v12" true
      = .ok ⟨"v12", List.replicate 12 1, true⟩
    ∧ Vector.numAtoms ⟨"v12", List.replicate 12 1, true⟩ = 4
    ∧ Vector.numAtoms ⟨"v12", List.replicate 12 1, true⟩ ≠ 3 :=
  ⟨init_mk1d _ _ _ (fun _ => by decide), by decide, by decide⟩

/-- C2 as amended: `numAtoms()` returns the array length integer-divided
by 3 when the `is3d` flag is true and the array length otherwise; in
particular a 3-D vector of length 12 has `numAtoms() = 4` and a non-3-D
vector of length 12 has `numAtoms() = 12`. -/
theorem claim2_numAtoms_div3 :
    (∀ v : Vector, v._is3d = true → v.numAtoms = v._array.length / 3)
    ∧ (∀ v : Vector, v._is3d = false → v.numAtoms = v._array.length)
    ∧ (Vector.init (mk1d (List.replicate 12 1)) "a" true
        = .ok ⟨"a", List.replicate 12 1, true⟩
      ∧ Vector.numAtoms ⟨"a", List.replicate 12 1, true⟩ = 4)
    ∧ (Vector.init (mk1d (List.replicate 12 1)) "b" false
        = .ok ⟨"b", List.replicate 12 1, false⟩
      ∧ Vector.numAtoms ⟨"b", List.replicate 12 1, false⟩ = 12) := by
  refine ⟨?_, ?_, ⟨init_mk1d _ _ _ (fun _ => by decide), by decide⟩,
    ⟨init_mk1d _ _ _ (fun h => Bool.noConfusion h), by decide⟩⟩
  · intro v h
    simp [Vector.numAtoms, h]
  · intro v h
    simp [Vector.numAtoms, h]

/-- C2 witness: the two conditional halves of the amended statement,
applied to concrete 3-D and non-3-D vectors of length 12. -/
theorem claim2_numAtoms_div3_witness :
    Vector.numAtoms ⟨"a", List.replicate 12 1, true⟩
      = (List.replicate 12 (1 : ℚ)).length / 3
    ∧ Vector.numAtoms ⟨"b", List.replicate 12 1, false⟩
      = (List.replicate 12 (1 : ℚ)).length :=
  ⟨claim2_numAtoms_div3.1 ⟨"a", List.replicate 12 1, true⟩ rfl,
   claim2_numAtoms_div3.2.1 ⟨"b", List.replicate 12 1, false⟩ rfl⟩

/-- C3 counterexample: the dimension-mismatch `ValueError` raised by
`__add__` has the fixed message `modes do not have the same length`; it
does not name either operand's label, contrary to the claim. -/
theorem claim3_mismatch_message_counterexample :
    VB.add (.vec ⟨"foo", [1], false⟩) (.vb (.vec ⟨"bar", [1, 2], false⟩))
      = .error (.valueError "modes do not have the same length")
    ∧ ¬ mentions "modes do not have the same length" "foo"
    ∧ ¬ mentions "modes do not have the same length" "bar" :=
  ⟨rfl, by decide, by decide⟩

/-- C3 as amended: addition and subtraction between `VectorBase`
operands of unequal length raise a `ValueError` with the fixed message
`modes do not have the same length` (which does not name the operands);
a right operand that does not implement the interface raises a
`TypeError` whose message names the offending operand. -/
theorem claim3_amended_errors :
    (∀ s t : VB, s.len ≠ t.len →
      VB.add s (.vb t) = .error (.valueError "modes do not have the same length")
      ∧ VB.sub s (.vb t) = .error (.valueError "modes do not have the same length"))
    ∧ (∀ (s : VB) (r : String),
      VB.add s (.other r) = .error (.typeError (r ++ " is not a mode instance"))
      ∧ VB.sub s (.other r) = .error (.typeError (r ++ " is not a mode instance"))
      ∧ mentions (r ++ " is not a mode instance") r)
    ∧ (∀ (s : VB) (c : ℚ),
      VB.add s (.scalar c) = .error (.typeError (qstr c ++ " is not a mode instance"))
      ∧ VB.sub s (.scalar c) = .error (.typeError (qstr c ++ " is not a mode instance"))
      ∧ mentions (qstr c ++ " is not a mode instance") (qstr c)) := by
  refine ⟨?_, ?_, ?_⟩
  · intro s t h
    constructor
    · simp only [VB.add]
      rw [if_pos h]
    · simp only [VB.sub]
      rw [if_pos h]
  · intro s r
    exact ⟨rfl, rfl, mentions_self_append r " is not a mode instance"⟩
  · intro s c
    exact ⟨rfl, rfl, mentions_self_append _ _⟩

/-- C3 witness: the amended statement applied to concrete operands of
lengths 1 and 2 and to a concrete non-mode right operand. -/
theorem claim3_amended_errors_witness :
    VB.add (.vec ⟨"p", [1], false⟩) (.vb (.vec ⟨"q", [1, 2], false⟩))
      = .error (.valueError "modes do not have the same length")
    ∧ VB.add (.vec ⟨"p", [1], false⟩) (.other "spam")
      = .error (.typeError ("spam" ++ " is not a mode instance")) :=
  ⟨(claim3_amended_errors.1 (.vec ⟨"p", [1], false⟩)
      (.vec ⟨"q", [1, 2], false⟩) (by decide)).1,
   (claim3_amended_errors.2.1 (.vec ⟨"p", [1], false⟩) "spam").1⟩

/-- The two-mode, 12-DOF, 4-atom demonstration model of the spec:
eigenvector columns `e0 = [1,0,…,0]` and `e1 = [0,1,0,…,0]`, eigenvalues
`[2, 5]` (variances their inverses), stored as the rows of the 12×2
eigenvector matrix. -/
def demoModel : NMAModel :=
  { _array := [[1, 0], [0, 1], [0, 0], [0, 0], [0, 0], [0, 0],
               [0, 0], [0, 0], [0, 0], [0, 0], [0, 0], [0, 0]]
  , _eigvals := [2, 5]
  , _vars := [1 / 2, 1 / 5]
  , dof := 12
  , natoms := 4
  , is3dFlag := true
  , label := "model" }

/-- C4: on the demonstration model, `Mode(model,0) * Mode(model,0)`
returns the scalar 1, `Mode(model,0) * Mode(model,1)` returns the
scalar 0, `float(Mode(model,0))` returns the eigenvalue 2, and
`int(Mode(model,1))` returns the zero-based index 1. -/
theorem claim4_demo_model_operations :
    VB.mul (.mode ⟨demoModel, 0⟩) (.vb (.mode ⟨demoModel, 0⟩))
      = .ok (.scalar 1)
    ∧ VB.mul (.mode ⟨demoModel, 0⟩) (.vb (.mode ⟨demoModel, 1⟩))
      = .ok (.scalar 0)
    ∧ Mode.toFloat ⟨demoModel, 0⟩ = 2
    ∧ Mode.toIndex ⟨demoModel, 1⟩ = 1 := by
  have col0 : Mode.getArr ⟨demoModel, 0⟩
      = [1, 0, 0, 0, 0, 0, 0, 0, 0, 0, 0, 0] := by
    simp [Mode.getArr, NMAModel.column, demoModel]
  have col1 : Mode.getArr ⟨demoModel, 1⟩
      = [0, 1, 0, 0, 0, 0, 0, 0, 0, 0, 0, 0] := by
    simp [Mode.getArr, NMAModel.column, demoModel]
  refine ⟨?_, ?_, rfl, rfl⟩
  · have e : VB.mul (.mode ⟨demoModel, 0⟩) (.vb (.mode ⟨demoModel, 0⟩))
        = .ok (.scalar (npDot (Mode.getArr ⟨demoModel, 0⟩)
            (Mode.getArr ⟨demoModel, 0⟩))) := by
      simp [VB.mul, VB.getArr]
    rw [e, col0]
    norm_num [npDot]
  · have hlen12 : (Mode.getArr ⟨demoModel, 0⟩).length
        = (Mode.getArr ⟨demoModel, 1⟩).length := by
      simp [col0, col1]
    have e : VB.mul (.mode ⟨demoModel, 0⟩) (.vb (.mode ⟨demoModel, 1⟩))
        = .ok (.scalar (npDot (Mode.getArr ⟨demoModel, 0⟩)
            (Mode.getArr ⟨demoModel, 1⟩))) := by
      simp only [VB.mul, VB.getArr]
      rw [if_pos hlen12]
    rw [e, col0, col1]
    norm_num [npDot]

/-- C5: the `Vector` constructor coerces a non-array input with
`np.array`; rejects any array that is not exactly 1-D with the
`ValueError` `array.ndim must be 1` (regardless of shape); with the 3-D
flag set rejects a length that is not a multiple of 3 with the
`ValueError` `len(array) must be a multiple of 3`; accepts a 1-D array
of length divisible by 3; and defaults to `title = "Unknown"` and
`is3d = True`. -/
theorem claim5_vector_init_validation :
    (∀ (xs : List ℚ) (t : String) (d : Bool),
      Vector.init (.pylist xs) t d = Vector.init (mk1d xs) t d)
    ∧ (∀ (a : NDArray) (t : String) (d : Bool), a.ndim ≠ 1 →
      Vector.init (.ndarray a) t d = .error (.valueError "array.ndim must be 1"))
    ∧ (∀ (a : NDArray) (t : String), a.ndim = 1 → a.shape.headD 0 % 3 ≠ 0 →
      Vector.init (.ndarray a) t true
        = .error (.valueError "len(array) must be a multiple of 3"))
    ∧ (∀ (xs : List ℚ) (t : String), xs.length % 3 = 0 →
      Vector.init (mk1d xs) t true = .ok ⟨t, xs, true⟩)
    ∧ (∀ a : ArrayLike, Vector.init a = Vector.init a "Unknown" true) := by
  refine ⟨fun xs t d => init_pylist, ?_, ?_, ?_, fun a => rfl⟩
  · intro a t d h
    rw [init_ndarray, if_pos h]
  · intro a t h1 h2
    rw [init_ndarray, if_neg (not_not_intro h1), if_pos ⟨rfl, h2⟩]
  · intro xs t h
    exact init_mk1d xs t true (fun _ => h)

/-- C5 witness: a 2×3 2-D array is rejected as non-1-D, a 1-D array of
length 4 is rejected with the multiple-of-3 error, and a 1-D array of
length 3 is accepted. -/
theorem claim5_vector_init_validation_witness :
    Vector.init (.ndarray ⟨[2, 3], List.replicate 6 0, by decide⟩) "t" true
      = .error (.valueError "array.ndim must be 1")
    ∧ Vector.init (.ndarray ⟨[4], List.replicate 4 0, by decide⟩) "t" true
      = .error (.valueError "len(array) must be a multiple of 3")
    ∧ Vector.init (mk1d [0, 0, 0]) "t" true = .ok ⟨"t", [0, 0, 0], true⟩ :=
  ⟨claim5_vector_init_validation.2.1 _ "t" true (by decide),
   claim5_vector_init_validation.2.2.1 _ "t" (by decide) (by decide),
   claim5_vector_init_validation.2.2.2.1 [0, 0, 0] "t" (by decide)⟩

/-- C6: every arithmetic operator of the module (negation, addition,
subtraction, multiplication, division, power, and their reflected and
in-place forms), whenever it succeeds with a result that is not a plain
scalar, returns a freshly constructed `Vector` — never a `Mode`.  The
embedding is state-free because the source operators assign to no
attribute of either operand, so non-mutation holds by construction. -/
theorem claim6_arithmetic_promotes_to_vector :
    (∀ (s : VB) (r : PyVal), VB.neg s = .ok r → freshVec r)
    ∧ (∀ (s : VB) (o r : PyVal), VB.add s o = .ok r → freshVec r)
    ∧ (∀ (s : VB) (o r : PyVal), VB.radd s o = .ok r → freshVec r)
    ∧ (∀ (s : VB) (o r : PyVal), VB.iadd s o = .ok r → freshVec r)
    ∧ (∀ (s : VB) (o r : PyVal), VB.sub s o = .ok r → freshVec r)
    ∧ (∀ (s : VB) (o r : PyVal), VB.rsub s o = .ok r → freshVec r)
    ∧ (∀ (s : VB) (o r : PyVal), VB.isub s o = .ok r → freshVec r)
    ∧ (∀ (s : VB) (o r : PyVal), VB.div s o = .ok r → freshVec r)
    ∧ (∀ (s : VB) (o r : PyVal), VB.idiv s o = .ok r → freshVec r)
    ∧ (∀ (s : VB) (o r : PyVal), VB.pow s o = .ok r → freshVec r)
    ∧ (∀ (s : VB) (o r : PyVal), VB.mul s o = .ok r →
        (∀ q, r ≠ .scalar q) → freshVec r)
    ∧ (∀ (s : VB) (o r : PyVal), VB.rmul s o = .ok r →
        (∀ q, r ≠ .scalar q) → freshVec r)
    ∧ (∀ (s : VB) (o r : PyVal), VB.imul s o = .ok r →
        (∀ q, r ≠ .scalar q) → freshVec r) :=
  ⟨fun _ _ h => neg_ok_shape h,
   fun _ _ _ h => add_ok_shape h, fun _ _ _ h => radd_ok_shape h,
   fun _ _ _ h => add_ok_shape h, fun _ _ _ h => sub_ok_shape h,
   fun _ _ _ h => rsub_ok_shape h, fun _ _ _ h => sub_ok_shape h,
   fun _ _ _ h => div_ok_shape h, fun _ _ _ h => div_ok_shape h,
   fun _ _ _ h => pow_ok_shape h,
   fun _ _ _ h hs => mul_ok_shape h hs, fun _ _ _ h hs => rmul_ok_shape h hs,
   fun _ _ _ h hs => mul_ok_shape h hs⟩

/-- C6 witness: negation of a concrete non-3-D vector succeeds and its
result is a freshly constructed `Vector`. -/
theorem claim6_arithmetic_promotes_to_vector_witness :
    freshVec (.vb (.vec ⟨"-(w)", [-1, -2, -3], false⟩)) :=
  claim6_arithmetic_promotes_to_vector.1 (.vec ⟨"w", [1, 2, 3], false⟩) _ rfl

/-- The ways a `Vector` instance comes into existence in the module:
direct construction, one of the arithmetic operators (the in-place
forms return exactly the corresponding plain operator's result, so they
are covered by the same cases), `getNormed`, or a `setTitle` update of
an existing instance. -/
inductive Produced : Vector → Prop where
  | init (a : ArrayLike) (t : String) (d : Bool) (v : Vector) :
      Vector.init a t d = .ok v → Produced v
  | neg (s : VB) (v : Vector) : VB.neg s = .ok (.vb (.vec v)) → Produced v
  | add (s : VB) (o : PyVal) (v : Vector) :
      VB.add s o = .ok (.vb (.vec v)) → Produced v
  | radd (s : VB) (o : PyVal) (v : Vector) :
      VB.radd s o = .ok (.vb (.vec v)) → Produced v
  | sub (s : VB) (o : PyVal) (v : Vector) :
      VB.sub s o = .ok (.vb (.vec v)) → Produced v
  | rsub (s : VB) (o : PyVal) (v : Vector) :
      VB.rsub s o = .ok (.vb (.vec v)) → Produced v
  | mul (s : VB) (o : PyVal) (v : Vector) :
      VB.mul s o = .ok (.vb (.vec v)) → Produced v
  | rmul (s : VB) (o : PyVal) (v : Vector) :
      VB.rmul s o = .ok (.vb (.vec v)) → Produced v
  | div (s : VB) (o : PyVal) (v : Vector) :
      VB.div s o = .ok (.vb (.vec v)) → Produced v
  | pow (s : VB) (o : PyVal) (v : Vector) :
      VB.pow s o = .ok (.vb (.vec v)) → Produced v
  | normed (w : Vector) (nrm : ℚ) (v : Vector) :
      Vector.getNormedWith w nrm = .ok (.vb (.vec v)) → Produced v
  | setTitle (w : Vector) (t : String) : Produced w → Produced (w.setTitle t)

/-- C7: every `Vector` that exists — constructed directly or produced by
any operation of the module — satisfies the invariant that a true
`is3d` flag implies an array length divisible by 3, because every
producing path runs the constructor, which rejects violations. -/
theorem claim7_is3d_invariant : ∀ v : Vector, Produced v → v.inv3d := by
  intro v h
  induction h with
  | init a t d w hw => exact init_ok_inv hw
  | neg s w hw => exact freshVec_inv (neg_ok_shape hw)
  | add s o w hw => exact freshVec_inv (add_ok_shape hw)
  | radd s o w hw => exact freshVec_inv (radd_ok_shape hw)
  | sub s o w hw => exact freshVec_inv (sub_ok_shape hw)
  | rsub s o w hw => exact freshVec_inv (rsub_ok_shape hw)
  | mul s o w hw =>
    exact freshVec_inv (mul_ok_shape hw (fun q hq => PyVal.noConfusion hq))
  | rmul s o w hw =>
    exact freshVec_inv (rmul_ok_shape hw (fun q hq => PyVal.noConfusion hq))
  | div s o w hw => exact freshVec_inv (div_ok_shape hw)
  | pow s o w hw => exact freshVec_inv (pow_ok_shape hw)
  | normed w nrm u hu => exact freshVec_inv (getNormedWith_ok_shape hu)
  | setTitle w t hw ih =>
    intro hd
    exact ih hd

/-- C7 witness: a concrete 3-D vector of length 3 obtained from the
constructor satisfies the invariant. -/
theorem claim7_is3d_invariant_witness :
    Vector.inv3d ⟨"w7", [1, 2, 3], true⟩ :=
  claim7_is3d_invariant _ (Produced.init (mk1d [1, 2, 3]) "w7" true _
    (init_mk1d _ _ _ (fun _ => by decide)))

/-- C8: for vectors `A` and `B` of equal length (satisfying the class
invariant), `A + B` and `B + A` both succeed and their arrays are equal
(addition is commutative up to the composed title and the 3-D flag,
which is taken from the left operand), and `(A + B) - B` succeeds with
an array exactly equal to `A`'s (exact arithmetic). -/
theorem claim8_add_comm_cancel (A B : Vector)
    (hlen : A._array.length = B._array.length)
    (hA : A.inv3d) (hB : B.inv3d) :
    ∃ vab vba vres : Vector,
      VB.add (.vec A) (.vb (.vec B)) = .ok (.vb (.vec vab))
      ∧ VB.add (.vec B) (.vb (.vec A)) = .ok (.vb (.vec vba))
      ∧ vab._array = vba._array
      ∧ VB.sub (.vec vab) (.vb (.vec B)) = .ok (.vb (.vec vres))
      ∧ vres._array = A._array := by
  have hzlen : (List.zipWith (· + ·) A._array B._array).length
      = B._array.length := by
    rw [List.length_zipWith, hlen, min_self]
  have hzlen2 : (List.zipWith (· + ·) B._array A._array).length
      = A._array.length := by
    rw [List.length_zipWith, ← hlen, min_self]
  refine ⟨⟨"(" ++ A._title ++ ") + (" ++ B._title ++ ")",
           List.zipWith (· + ·) A._array B._array, A._is3d⟩,
          ⟨"(" ++ B._title ++ ") + (" ++ A._title ++ ")",
           List.zipWith (· + ·) B._array A._array, B._is3d⟩,
          ⟨"(" ++ ("(" ++ A._title ++ ") + (" ++ B._title ++ ")") ++ ") - ("
             ++ B._title ++ ")", A._array, A._is3d⟩,
          ?_, ?_, zipWith_add_comm A._array B._array, ?_, rfl⟩
  · simp only [VB.add, VB.getArr, VB.str, VB.is3d, VB.len]
    rw [if_neg (not_not_intro hlen)]
    exact mkVec_eq_ok _ _ _ (fun h3 => by rw [hzlen]; exact hlen ▸ hA h3)
  · simp only [VB.add, VB.getArr, VB.str, VB.is3d, VB.len]
    rw [if_neg (not_not_intro hlen.symm)]
    exact mkVec_eq_ok _ _ _ (fun h3 => by rw [hzlen2]; exact hlen.symm ▸ hB h3)
  · simp only [VB.sub, VB.getArr, VB.str, VB.is3d, VB.len]
    rw [if_neg (not_not_intro hzlen)]
    rw [zipWith_add_sub_cancel A._array B._array hlen]
    exact mkVec_eq_ok _ _ _ (fun h3 => hA h3)

/-- C8 witness: the commutativity-and-cancellation statement applied to
the concrete 3-D vectors `[1,2,3]` and `[4,5,6]`. -/
theorem claim8_add_comm_cancel_witness :
    ∃ vab vba vres : Vector,
      VB.add (.vec ⟨"A8", [1, 2, 3], true⟩) (.vb (.vec ⟨"B8", [4, 5, 6], true⟩))
        = .ok (.vb (.vec vab))
      ∧ VB.add (.vec ⟨"B8", [4, 5, 6], true⟩) (.vb (.vec ⟨"A8", [1, 2, 3], true⟩))
        = .ok (.vb (.vec vba))
      ∧ vab._array = vba._array
      ∧ VB.sub (.vec vab) (.vb (.vec ⟨"B8", [4, 5, 6], true⟩))
        = .ok (.vb (.vec vres))
      ∧ vres._array = [1, 2, 3] :=
  claim8_add_comm_cancel ⟨"A8", [1, 2, 3], true⟩ ⟨"B8", [4, 5, 6], true⟩ rfl
    (fun _ => by decide) (fun _ => by decide)

/-- C9: each in-place operator (`__iadd__`, `__isub__`, `__imul__`,
`__idiv__`) is extensionally equal to its non-mutating counterpart, and
any successful non-scalar result is a freshly constructed `Vector`
(there is no storage to mutate: the operators rebind). -/
theorem claim9_inplace_eq_counterparts :
    (∀ (s : VB) (o : PyVal), VB.iadd s o = VB.add s o)
    ∧ (∀ (s : VB) (o : PyVal), VB.isub s o = VB.sub s o)
    ∧ (∀ (s : VB) (o : PyVal), VB.imul s o = VB.mul s o)
    ∧ (∀ (s : VB) (o : PyVal), VB.idiv s o = VB.div s o)
    ∧ (∀ (s : VB) (o r : PyVal), VB.iadd s o = .ok r → freshVec r)
    ∧ (∀ (s : VB) (o r : PyVal), VB.isub s o = .ok r → freshVec r)
    ∧ (∀ (s : VB) (o r : PyVal), VB.idiv s o = .ok r → freshVec r)
    ∧ (∀ (s : VB) (o r : PyVal), VB.imul s o = .ok r →
        (∀ q, r ≠ .scalar q) → freshVec r) :=
  ⟨fun _ _ => rfl, fun _ _ => rfl, fun _ _ => rfl, fun _ _ => rfl,
   fun _ _ _ h => add_ok_shape h, fun _ _ _ h => sub_ok_shape h,
   fun _ _ _ h => div_ok_shape h, fun _ _ _ h hs => mul_ok_shape h hs⟩

/-- C9 witness: `+=` of a concrete vector with itself succeeds and its
result is a freshly constructed `Vector`. -/
theorem claim9_inplace_eq_counterparts_witness :
    freshVec (.vb (.vec ⟨"(w9) + (w9)",
      List.zipWith (· + ·) [(1 : ℚ), 2] [(1 : ℚ), 2], false⟩)) :=
  claim9_inplace_eq_counterparts.2.2.2.2.1 (.vec ⟨"w9", [1, 2], false⟩)
    (.vb (.vec ⟨"w9", [1, 2], false⟩)) _ rfl

/-- C10: when both multiplication operands expose the array accessor but
the dot product of their arrays fails (unequal lengths), the handler in
`__mul__`/`__rmul__` interpolates `str(err)` with `err` unbound in that
scope, so the operation raises a `NameError` — never the
dimension-mismatch `ValueError` whose message it attempts to build. -/
theorem claim10_mul_unbound_err_NameError (s t : VB)
    (h : s.getArr.length ≠ t.getArr.length) :
    VB.mul s (.vb t) = .error (.nameError "name err is not defined")
    ∧ VB.rmul s (.vb t) = .error (.nameError "name err is not defined")
    ∧ (∀ msg, VB.mul s (.vb t) ≠ .error (.valueError msg))
    ∧ (∀ msg, VB.rmul s (.vb t) ≠ .error (.valueError msg)) := by
  have hm : VB.mul s (.vb t) = .error (.nameError "name err is not defined") := by
    simp only [VB.mul]
    rw [if_neg h]
  have hr : VB.rmul s (.vb t) = .error (.nameError "name err is not defined") := by
    simp only [VB.rmul]
    rw [if_neg h]
  refine ⟨hm, hr, ?_, ?_⟩
  · intro msg hmsg
    rw [hm] at hmsg
    exact PyErr.noConfusion (Except.error.inj hmsg)
  · intro msg hmsg
    rw [hr] at hmsg
    exact PyErr.noConfusion (Except.error.inj hmsg)

/-- C10 witness: multiplying concrete vectors of lengths 1 and 2 raises
the `NameError`. -/
theorem claim10_mul_unbound_err_NameError_witness :
    VB.mul (.vec ⟨"u", [1], false⟩) (.vb (.vec ⟨"w", [1, 2], false⟩))
      = .error (.nameError "name err is not defined") :=
  (claim10_mul_unbound_err_NameError (.vec ⟨"u", [1], false⟩)
    (.vec ⟨"w", [1, 2], false⟩) (by decide)).1

end ProDyMode
